import Mathlib

/-!
Shallow embedding of the `tap` crate (`src/tap.rs`).

The crate provides point-free inspection methods: each method takes a value by
ownership together with a caller-supplied effect closure (`FnOnce` taking a
borrow and returning unit, possibly with side effects), runs the effect on a
borrowed view of the value, and returns the value.

Embedding choices:
* Side-effecting closures are modelled as Kleisli arrows into an arbitrary
  monad `m`: an immutable-borrow effect `impl FnOnce(&T)` becomes
  `T → m Unit`, and a mutable-borrow effect `impl FnOnce(&mut T)` becomes
  `T → m T` (the returned `T` is the value left behind in the borrowed slot).
  Instantiating `m := StateM σ` gives the usual "closure over an environment"
  semantics in which invocations are observable through the state `σ`;
  instantiating `m := Except ε` gives panic semantics (an effect that panics
  is an effect returning `Except.error`).
* The Rust traits `Borrow`, `AsRef` and `Deref` each contribute one method
  `&Self → &B`; their embeddings are plain conversion functions `α → β`.
  The mutable counterparts `BorrowMut`, `AsMut` and `DerefMut` yield a
  mutable reference into the receiver, embedded as a lens `MutView`
  (a getter extracting the view and a setter writing a mutated view back).
* The `Try` trait is embedded as the structure `TryImpl` bundling its three
  methods `branch`, `from_output` and `from_residual`; `ControlFlow` is the
  two-constructor inductive from `core::ops`.  The specification's `Outcome`
  type (`Success`/`Failure` sum) is the canonical `Try` implementor, with
  `branch`, `from_output`, `from_residual` given by the evident maps.
* `cfg!(debug_assertions)` is a compile-time build flag; it is embedded as an
  explicit `Bool` parameter `debug_assertions` of every `_dbg` method.
-/

set_option autoImplicit false

namespace TapSpec

/-- `core::ops::ControlFlow<B, C>`: `Break` short-circuits, `Continue` goes on. -/
inductive ControlFlow (B C : Type) : Type where
  | Break : B → ControlFlow B C
  | Continue : C → ControlFlow B C
deriving DecidableEq, Repr

/-- The `core::ops::Try` trait, restricted to the three methods the crate
uses: `branch : Self → ControlFlow<Residual, Output>`, `from_output` and
`from_residual` (the latter from `FromResidual`). `T` is `Self`, `O` is
`Self::Output`, `R` is `Self::Residual`. -/
structure TryImpl (T O R : Type) : Type where
  branch : T → ControlFlow R O
  from_output : O → T
  from_residual : R → T

/-- A mutable view relation (`BorrowMut`, `AsMut` or `DerefMut`): a mutable
reference `&mut B` into the receiver is a lens, with `get` reading the view
and `set` writing a (possibly mutated) view back into the receiver. -/
structure MutView (A B : Type) : Type where
  get : A → B
  set : A → B → A

variable {m : Type → Type} [Monad m]
variable {A B T O R : Type}

/-- `Tap::tap`: `func(&self); self`. -/
def tap (v : A) (func : A → m Unit) : m A := do
  func v
  pure v

/-- `Tap::tap_mut`: `func(&mut self); self`. -/
def tap_mut (v : A) (func : A → m A) : m A := do
  let v1 ← func v
  pure v1

/-- `Tap::tap_borrow`: `func(Borrow::<B>::borrow(&self)); self`. -/
def tap_borrow (borrow : A → B) (v : A) (func : B → m Unit) : m A := do
  func (borrow v)
  pure v

/-- `Tap::tap_borrow_mut`: `func(BorrowMut::<B>::borrow_mut(&mut self)); self`. -/
def tap_borrow_mut (V : MutView A B) (v : A) (func : B → m B) : m A := do
  let b ← func (V.get v)
  pure (V.set v b)

/-- `Tap::tap_ref`: `func(AsRef::<R>::as_ref(&self)); self`. -/
def tap_ref (as_ref : A → B) (v : A) (func : B → m Unit) : m A := do
  func (as_ref v)
  pure v

/-- `Tap::tap_ref_mut`: `func(AsMut::<R>::as_mut(&mut self)); self`. -/
def tap_ref_mut (V : MutView A B) (v : A) (func : B → m B) : m A := do
  let b ← func (V.get v)
  pure (V.set v b)

/-- `Tap::tap_deref`: `func(Deref::deref(&self)); self`. -/
def tap_deref (deref : A → B) (v : A) (func : B → m Unit) : m A := do
  func (deref v)
  pure v

/-- `Tap::tap_deref_mut`: `func(DerefMut::deref_mut(&mut self)); self`. -/
def tap_deref_mut (V : MutView A B) (v : A) (func : B → m B) : m A := do
  let b ← func (V.get v)
  pure (V.set v b)

/-- `Tap::tap_dbg`: `if cfg!(debug_assertions) { func(&self); } self`. -/
def tap_dbg (debug_assertions : Bool) (v : A) (func : A → m Unit) : m A := do
  if debug_assertions then
    func v
  pure v

/-- `Tap::tap_mut_dbg`: `if cfg!(debug_assertions) { func(&mut self); } self`. -/
def tap_mut_dbg (debug_assertions : Bool) (v : A) (func : A → m A) : m A := do
  if debug_assertions then
    let v1 ← func v
    pure v1
  else
    pure v

/-- `Tap::tap_borrow_dbg`. -/
def tap_borrow_dbg (debug_assertions : Bool) (borrow : A → B) (v : A)
    (func : B → m Unit) : m A := do
  if debug_assertions then
    func (borrow v)
  pure v

/-- `Tap::tap_borrow_mut_dbg`. -/
def tap_borrow_mut_dbg (debug_assertions : Bool) (V : MutView A B) (v : A)
    (func : B → m B) : m A := do
  if debug_assertions then
    let b ← func (V.get v)
    pure (V.set v b)
  else
    pure v

/-- `Tap::tap_ref_dbg`. -/
def tap_ref_dbg (debug_assertions : Bool) (as_ref : A → B) (v : A)
    (func : B → m Unit) : m A := do
  if debug_assertions then
    func (as_ref v)
  pure v

/-- `Tap::tap_ref_mut_dbg`. -/
def tap_ref_mut_dbg (debug_assertions : Bool) (V : MutView A B) (v : A)
    (func : B → m B) : m A := do
  if debug_assertions then
    let b ← func (V.get v)
    pure (V.set v b)
  else
    pure v

/-- `Tap::tap_deref_dbg`. -/
def tap_deref_dbg (debug_assertions : Bool) (deref : A → B) (v : A)
    (func : B → m Unit) : m A := do
  if debug_assertions then
    func (deref v)
  pure v

/-- `Tap::tap_deref_mut_dbg`. -/
def tap_deref_mut_dbg (debug_assertions : Bool) (V : MutView A B) (v : A)
    (func : B → m B) : m A := do
  if debug_assertions then
    let b ← func (V.get v)
    pure (V.set v b)
  else
    pure v

/-- `TapFallible::tap_continue` (blanket impl for `T: Try`): match on
`self.branch()`; on `Continue(output)` run `func(&output)` and rebuild with
`from_output`, on `Break(residual)` rebuild with `from_residual`. -/
def tap_continue (I : TryImpl T O R) (t : T) (func : O → m Unit) : m T :=
  match I.branch t with
  | ControlFlow.Continue output => do
      func output
      pure (I.from_output output)
  | ControlFlow.Break residual => pure (I.from_residual residual)

/-- `TapFallible::tap_continue_mut`: as `tap_continue`, with a mutable borrow
of the output. -/
def tap_continue_mut (I : TryImpl T O R) (t : T) (func : O → m O) : m T :=
  match I.branch t with
  | ControlFlow.Continue output => do
      let o ← func output
      pure (I.from_output o)
  | ControlFlow.Break residual => pure (I.from_residual residual)

/-- `TapFallible::tap_break`: match on `self.branch()`; on `Break(residual)`
run `func(&residual)` and rebuild with `from_residual`, on `Continue(output)`
rebuild with `from_output`. -/
def tap_break (I : TryImpl T O R) (t : T) (func : R → m Unit) : m T :=
  match I.branch t with
  | ControlFlow.Continue output => pure (I.from_output output)
  | ControlFlow.Break residual => do
      func residual
      pure (I.from_residual residual)

/-- `TapFallible::tap_break_mut`: as `tap_break`, with a mutable borrow of the
residual. -/
def tap_break_mut (I : TryImpl T O R) (t : T) (func : R → m R) : m T :=
  match I.branch t with
  | ControlFlow.Continue output => pure (I.from_output output)
  | ControlFlow.Break residual => do
      let r ← func residual
      pure (I.from_residual r)

/-- `TapFallible::tap_continue_dbg`:
`if cfg!(debug_assertions) { self.tap_continue(func) } else { self }`. -/
def tap_continue_dbg (debug_assertions : Bool) (I : TryImpl T O R) (t : T)
    (func : O → m Unit) : m T :=
  if debug_assertions then tap_continue I t func else pure t

/-- `TapFallible::tap_continue_mut_dbg`. -/
def tap_continue_mut_dbg (debug_assertions : Bool) (I : TryImpl T O R) (t : T)
    (func : O → m O) : m T :=
  if debug_assertions then tap_continue_mut I t func else pure t

/-- `TapFallible::tap_break_dbg`. -/
def tap_break_dbg (debug_assertions : Bool) (I : TryImpl T O R) (t : T)
    (func : R → m Unit) : m T :=
  if debug_assertions then tap_break I t func else pure t

/-- `TapFallible::tap_break_mut_dbg`. -/
def tap_break_mut_dbg (debug_assertions : Bool) (I : TryImpl T O R) (t : T)
    (func : R → m R) : m T :=
  if debug_assertions then tap_break_mut I t func else pure t

/-- The specification's `Outcome`: a two-branch sum, `Success` carrying the
continuation payload and `Failure` the short-circuit payload.  It is the
canonical two-branch `Try` implementor (the abstraction of `Result`). -/
inductive Outcome (O R : Type) : Type where
  | Success : O → Outcome O R
  | Failure : R → Outcome O R
deriving DecidableEq, Repr

/-- `branch` for `Outcome`: `Success` is the `Continue` branch, `Failure` the
`Break` branch. -/
def Outcome.branch : Outcome O R → ControlFlow R O
  | Outcome.Success p => ControlFlow.Continue p
  | Outcome.Failure q => ControlFlow.Break q

/-- The `Try` implementation for `Outcome`. -/
def Outcome.tryImpl : TryImpl (Outcome O R) O R where
  branch := Outcome.branch
  from_output := Outcome.Success
  from_residual := Outcome.Failure

/-- The branch tag of an `Outcome`: `true` on `Success`, `false` on `Failure`. -/
def Outcome.isSuccess : Outcome O R → Bool
  | Outcome.Success _ => true
  | Outcome.Failure _ => false

/-- C1: conditional selectivity.  For every Outcome, every effect and every
effect-state: on `Success p`, `tap_continue` runs its effect exactly once on
`p` (the final state is exactly one application of the effect to the initial
state) while `tap_break` leaves the state untouched for every effect (it is
never invoked); on `Failure q` the roles are exactly swapped.  Hence for any
given Outcome exactly one of the two operations would invoke its effect,
never both and never neither. -/
theorem tap_continue_tap_break_selectivity {O R S : Type} (p : O) (q : R)
    (f : O → StateM S Unit) (g : R → StateM S Unit) (s : S) :
    ((tap_continue (m := StateM S) Outcome.tryImpl
          (Outcome.Success p : Outcome O R) f).run s
        = (Outcome.Success p, ((f p).run s).2)
      ∧ (tap_break (m := StateM S) Outcome.tryImpl
          (Outcome.Success p : Outcome O R) g).run s
        = (Outcome.Success p, s))
  ∧ ((tap_continue (m := StateM S) Outcome.tryImpl
          (Outcome.Failure q : Outcome O R) f).run s
        = (Outcome.Failure q, s)
      ∧ (tap_break (m := StateM S) Outcome.tryImpl
          (Outcome.Failure q : Outcome O R) g).run s
        = (Outcome.Failure q, ((g q).run s).2)) :=
  ⟨⟨rfl, rfl⟩, ⟨rfl, rfl⟩⟩

/-- C2: branch-tag preservation.  Every Outcome covered via its two shapes
`Success p` / `Failure q`: each of `tap_continue`, `tap_continue_mut`,
`tap_break`, `tap_break_mut` returns an Outcome on the same branch as its
input, for every effect and state; and when the branch does not match the
operation's target, the returned Outcome and the effect state are exactly
the input ones (the result is behaviorally identical to the input). -/
theorem tapFallible_branch_preserved {O R S : Type} (p : O) (q : R)
    (f : O → StateM S Unit) (fm : O → StateM S O)
    (g : R → StateM S Unit) (gm : R → StateM S R) (s : S) :
    (((tap_continue (m := StateM S) Outcome.tryImpl
          (Outcome.Success p : Outcome O R) f).run s).1.isSuccess = true
      ∧ ((tap_continue_mut (m := StateM S) Outcome.tryImpl
          (Outcome.Success p : Outcome O R) fm).run s).1.isSuccess = true
      ∧ (tap_break (m := StateM S) Outcome.tryImpl
          (Outcome.Success p : Outcome O R) g).run s = (Outcome.Success p, s)
      ∧ (tap_break_mut (m := StateM S) Outcome.tryImpl
          (Outcome.Success p : Outcome O R) gm).run s = (Outcome.Success p, s))
  ∧ (((tap_break (m := StateM S) Outcome.tryImpl
          (Outcome.Failure q : Outcome O R) g).run s).1.isSuccess = false
      ∧ ((tap_break_mut (m := StateM S) Outcome.tryImpl
          (Outcome.Failure q : Outcome O R) gm).run s).1.isSuccess = false
      ∧ (tap_continue (m := StateM S) Outcome.tryImpl
          (Outcome.Failure q : Outcome O R) f).run s = (Outcome.Failure q, s)
      ∧ (tap_continue_mut (m := StateM S) Outcome.tryImpl
          (Outcome.Failure q : Outcome O R) fm).run s = (Outcome.Failure q, s)) :=
  ⟨⟨rfl, rfl, rfl, rfl⟩, ⟨rfl, rfl, rfl, rfl⟩⟩

/-- C5: the mutable conditional taps preserve the effect's mutation in the
reconstructed Outcome: `tap_continue_mut` on `Success p` returns `Success`
of the effect's output on `p` (with the effect's state change), dually
`tap_break_mut` on `Failure q`; in particular `Success 8` with a
payload-doubling effect yields `Success 16`. -/
theorem tap_mut_conditional_preserves_mutation {O R S : Type} (p : O) (q : R)
    (fm : O → StateM S O) (gm : R → StateM S R) (s : S) :
    ((tap_continue_mut (m := StateM S) Outcome.tryImpl
          (Outcome.Success p : Outcome O R) fm).run s
        = (Outcome.Success ((fm p).run s).1, ((fm p).run s).2))
  ∧ ((tap_break_mut (m := StateM S) Outcome.tryImpl
          (Outcome.Failure q : Outcome O R) gm).run s
        = (Outcome.Failure ((gm q).run s).1, ((gm q).run s).2))
  ∧ ((tap_continue_mut (m := StateM Unit) Outcome.tryImpl
          (Outcome.Success 8 : Outcome Nat String) (fun n => pure (2 * n))).run ()
        = (Outcome.Success 16, ())) :=
  ⟨rfl, rfl, rfl⟩

/-- C8: `tap_break` on `Failure q` invokes its effect with the failure
payload `q` itself (the final state is exactly one application of the effect
to `q`), and on `Success p` it is a no-op: the effect is never invoked and
both the Outcome and the state come back unchanged. -/
theorem tap_break_receives_failure_payload {O R S : Type} (q : R) (p : O)
    (g g2 : R → StateM S Unit) (s : S) :
    ((tap_break (m := StateM S) Outcome.tryImpl
          (Outcome.Failure q : Outcome O R) g).run s
        = (Outcome.Failure q, ((g q).run s).2))
  ∧ ((tap_break (m := StateM S) Outcome.tryImpl
          (Outcome.Success p : Outcome O R) g2).run s
        = (Outcome.Success p, s)) :=
  ⟨rfl, rfl⟩

/-- C3: plain-tap identity.  For every value, every effect and every
effect-state, `tap v f` invokes `f` exactly once on `v` (the final state is
exactly one application of `f v` to the initial state) and returns `v`
itself.  The equation holds for every effect `f`, so no effect can alter the
returned value through the immutable view: the value component is `v`
unconditionally. -/
theorem tap_identity {A S : Type} (v : A) (f : A → StateM S Unit) (s : S) :
    (tap (m := StateM S) v f).run s = (v, ((f v).run s).2) := rfl

/-- C4: mutation visibility.  For every value, every mutating effect and
every effect-state, `tap_mut v f` is exactly `f` applied in place to `v`:
the returned value is the value `f` left in the mutable slot and the
effect-state is exactly `f`'s state change — nothing more and nothing
less. -/
theorem tap_mut_visibility {A S : Type} (v : A) (f : A → StateM S A) (s : S) :
    (tap_mut (m := StateM S) v f).run s = (f v).run s := rfl

/-- C7: view correctness.  `tap_ref` invokes its effect exactly once on
`as_ref v` — the `AsRef`-conversion of `v`, not `v` itself — and returns
`v`; `tap_borrow` and `tap_deref` do the same through their respective
conversions.  The mutable forms invoke the effect exactly once on the view
`V.get v` obtained from the mutable conversion and return the original
value with the (possibly mutated) view written back; in particular, for a
lawful view (`V.set v (V.get v) = v`, as holds of every Rust `&mut`
reprojection) and a non-mutating effect, the original value comes back
unchanged. -/
theorem view_tap_correctness {A B S : Type} (as_ref borrow deref : A → B)
    (v : A) (f f2 f3 f4 : B → StateM S Unit) (fm : B → StateM S B)
    (V : MutView A B) (s : S) :
    ((tap_ref (m := StateM S) as_ref v f).run s
        = (v, ((f (as_ref v)).run s).2))
  ∧ ((tap_borrow (m := StateM S) borrow v f2).run s
        = (v, ((f2 (borrow v)).run s).2))
  ∧ ((tap_deref (m := StateM S) deref v f3).run s
        = (v, ((f3 (deref v)).run s).2))
  ∧ ((tap_ref_mut (m := StateM S) V v fm).run s
        = (V.set v ((fm (V.get v)).run s).1, ((fm (V.get v)).run s).2))
  ∧ ((tap_borrow_mut (m := StateM S) V v fm).run s
        = (V.set v ((fm (V.get v)).run s).1, ((fm (V.get v)).run s).2))
  ∧ ((tap_deref_mut (m := StateM S) V v fm).run s
        = (V.set v ((fm (V.get v)).run s).1, ((fm (V.get v)).run s).2))
  ∧ (V.set v (V.get v) = v →
      (tap_ref_mut (m := StateM S) V v (fun b => do f4 b; pure b)).run s
        = (v, ((f4 (V.get v)).run s).2)) := by
  refine ⟨rfl, rfl, rfl, rfl, rfl, rfl, fun h => ?_⟩
  have base : (tap_ref_mut (m := StateM S) V v (fun b => do f4 b; pure b)).run s
      = (V.set v (V.get v), ((f4 (V.get v)).run s).2) := rfl
  rw [base, h]

/-- Witness for C7 at a concrete lawful view: the first projection of a pair
as a mutable view of `(3, 5)`, with an effect that adds the viewed `3` to a
counter starting at `0` and leaves the view unchanged; the pair comes back
unchanged and the counter holds `3`. -/
theorem view_tap_correctness_witness :
    (tap_ref_mut (m := StateM Nat)
        (⟨Prod.fst, fun x b => (b, x.2)⟩ : MutView (Nat × Nat) Nat)
        ((3, 5) : Nat × Nat)
        (fun b => do modify (fun t => t + b); pure b)).run 0 = ((3, 5), 3) :=
  (view_tap_correctness Prod.fst Prod.fst Prod.fst ((3, 5) : Nat × Nat)
      (fun _ => pure ()) (fun _ => pure ()) (fun _ => pure ())
      (fun b => modify (fun t => t + b)) (fun b => pure b)
      (⟨Prod.fst, fun x b => (b, x.2)⟩ : MutView (Nat × Nat) Nat)
      0).2.2.2.2.2.2 rfl

/-- C10: taps compose with effect sequencing.  Chaining two plain taps
equals one tap whose effect runs the first then the second on the same
value; chaining two mutable taps equals one mutable tap whose effect applies
the first mutation and feeds its result to the second; and in the chain the
second effect observes exactly the value left by the first, in left-to-right
order. -/
theorem tap_sequencing {A S : Type} (v : A) (f g : A → StateM S Unit)
    (fm gm : A → StateM S A) (s : S) :
    (((tap (m := StateM S) v f) >>= fun v1 => tap v1 g).run s
        = (tap (m := StateM S) v (fun x => do f x; g x)).run s)
  ∧ (((tap_mut (m := StateM S) v fm) >>= fun v1 => tap_mut v1 gm).run s
        = (tap_mut (m := StateM S) v (fun x => do
            let x1 ← fm x
            gm x1)).run s)
  ∧ (((tap_mut (m := StateM S) v fm) >>= fun v1 => tap_mut v1 gm).run s
        = (gm ((fm v).run s).1).run ((fm v).run s).2) :=
  ⟨rfl, rfl, rfl⟩

/-- C6: debug gating.  For every debug-gated operation of both traits: with
`debug_assertions = true` it behaves identically to its non-debug
counterpart for every value, effect and state; with
`debug_assertions = false` the effect is never invoked (the state is
untouched, for every effect) and the receiver comes back unchanged — a true
behavioral no-op. -/
theorem dbg_variants_gate_on_debug_assertions {A B T O R S : Type} (v : A)
    (f : A → StateM S Unit) (fm : A → StateM S A) (conv : A → B)
    (g : B → StateM S Unit) (V : MutView A B) (gm : B → StateM S B)
    (I : TryImpl T O R) (t : T) (hc : O → StateM S Unit) (hcm : O → StateM S O)
    (hb : R → StateM S Unit) (hbm : R → StateM S R) (s : S) :
    ((tap_dbg (m := StateM S) true v f).run s
        = (tap (m := StateM S) v f).run s
      ∧ (tap_mut_dbg (m := StateM S) true v fm).run s
        = (tap_mut (m := StateM S) v fm).run s
      ∧ (tap_borrow_dbg (m := StateM S) true conv v g).run s
        = (tap_borrow (m := StateM S) conv v g).run s
      ∧ (tap_borrow_mut_dbg (m := StateM S) true V v gm).run s
        = (tap_borrow_mut (m := StateM S) V v gm).run s
      ∧ (tap_ref_dbg (m := StateM S) true conv v g).run s
        = (tap_ref (m := StateM S) conv v g).run s
      ∧ (tap_ref_mut_dbg (m := StateM S) true V v gm).run s
        = (tap_ref_mut (m := StateM S) V v gm).run s
      ∧ (tap_deref_dbg (m := StateM S) true conv v g).run s
        = (tap_deref (m := StateM S) conv v g).run s
      ∧ (tap_deref_mut_dbg (m := StateM S) true V v gm).run s
        = (tap_deref_mut (m := StateM S) V v gm).run s
      ∧ (tap_continue_dbg (m := StateM S) true I t hc).run s
        = (tap_continue (m := StateM S) I t hc).run s
      ∧ (tap_continue_mut_dbg (m := StateM S) true I t hcm).run s
        = (tap_continue_mut (m := StateM S) I t hcm).run s
      ∧ (tap_break_dbg (m := StateM S) true I t hb).run s
        = (tap_break (m := StateM S) I t hb).run s
      ∧ (tap_break_mut_dbg (m := StateM S) true I t hbm).run s
        = (tap_break_mut (m := StateM S) I t hbm).run s)
  ∧ ((tap_dbg (m := StateM S) false v f).run s = (v, s)
      ∧ (tap_mut_dbg (m := StateM S) false v fm).run s = (v, s)
      ∧ (tap_borrow_dbg (m := StateM S) false conv v g).run s = (v, s)
      ∧ (tap_borrow_mut_dbg (m := StateM S) false V v gm).run s = (v, s)
      ∧ (tap_ref_dbg (m := StateM S) false conv v g).run s = (v, s)
      ∧ (tap_ref_mut_dbg (m := StateM S) false V v gm).run s = (v, s)
      ∧ (tap_deref_dbg (m := StateM S) false conv v g).run s = (v, s)
      ∧ (tap_deref_mut_dbg (m := StateM S) false V v gm).run s = (v, s)
      ∧ (tap_continue_dbg (m := StateM S) false I t hc).run s = (t, s)
      ∧ (tap_continue_mut_dbg (m := StateM S) false I t hcm).run s = (t, s)
      ∧ (tap_break_dbg (m := StateM S) false I t hb).run s = (t, s)
      ∧ (tap_break_mut_dbg (m := StateM S) false I t hbm).run s = (t, s)) :=
  ⟨⟨rfl, rfl, rfl, rfl, rfl, rfl, rfl, rfl, rfl, rfl, rfl, rfl⟩,
    ⟨rfl, rfl, rfl, rfl, rfl, rfl, rfl, rfl, rfl, rfl, rfl, rfl⟩⟩

/-- C9: totality and panic propagation.  Every tap operation is a total
function (each is defined in Lean without partiality, so it terminates on
every input and returns a value of its receiver's type).  Under panic
semantics (`m := Except E`, a panicking effect returns `Except.error`), each
operation succeeds whenever its effect does — so the facility has no failure
mode of its own — and when the effect panics the operation returns exactly
that panic, with no catching, wrapping or recovery.  Each conjunct computes
the operation by cases on its effect's result. -/
theorem tap_total_and_propagates_panics {A B T O R E : Type} (v : A)
    (f : A → Except E Unit) (fm : A → Except E A) (conv : A → B)
    (g : B → Except E Unit) (V : MutView A B) (gm : B → Except E B)
    (I : TryImpl T O R) (t : T) (hc : O → Except E Unit) (hcm : O → Except E O)
    (hb : R → Except E Unit) (hbm : R → Except E R) :
    (tap (m := Except E) v f
      = match f v with
        | Except.ok _ => Except.ok v
        | Except.error e => Except.error e)
  ∧ (tap_mut (m := Except E) v fm = fm v)
  ∧ (tap_borrow (m := Except E) conv v g
      = match g (conv v) with
        | Except.ok _ => Except.ok v
        | Except.error e => Except.error e)
  ∧ (tap_borrow_mut (m := Except E) V v gm
      = match gm (V.get v) with
        | Except.ok b => Except.ok (V.set v b)
        | Except.error e => Except.error e)
  ∧ (tap_ref (m := Except E) conv v g
      = match g (conv v) with
        | Except.ok _ => Except.ok v
        | Except.error e => Except.error e)
  ∧ (tap_ref_mut (m := Except E) V v gm
      = match gm (V.get v) with
        | Except.ok b => Except.ok (V.set v b)
        | Except.error e => Except.error e)
  ∧ (tap_deref (m := Except E) conv v g
      = match g (conv v) with
        | Except.ok _ => Except.ok v
        | Except.error e => Except.error e)
  ∧ (tap_deref_mut (m := Except E) V v gm
      = match gm (V.get v) with
        | Except.ok b => Except.ok (V.set v b)
        | Except.error e => Except.error e)
  ∧ (tap_continue (m := Except E) I t hc
      = match I.branch t with
        | ControlFlow.Continue o =>
            (match hc o with
            | Except.ok _ => Except.ok (I.from_output o)
            | Except.error e => Except.error e)
        | ControlFlow.Break r => Except.ok (I.from_residual r))
  ∧ (tap_continue_mut (m := Except E) I t hcm
      = match I.branch t with
        | ControlFlow.Continue o =>
            (match hcm o with
            | Except.ok o1 => Except.ok (I.from_output o1)
            | Except.error e => Except.error e)
        | ControlFlow.Break r => Except.ok (I.from_residual r))
  ∧ (tap_break (m := Except E) I t hb
      = match I.branch t with
        | ControlFlow.Continue o => Except.ok (I.from_output o)
        | ControlFlow.Break r =>
            (match hb r with
            | Except.ok _ => Except.ok (I.from_residual r)
            | Except.error e => Except.error e))
  ∧ (tap_break_mut (m := Except E) I t hbm
      = match I.branch t with
        | ControlFlow.Continue o => Except.ok (I.from_output o)
        | ControlFlow.Break r =>
            (match hbm r with
            | Except.ok r1 => Except.ok (I.from_residual r1)
            | Except.error e => Except.error e)) := by
  refine ⟨?_, ?_, ?_, ?_, ?_, ?_, ?_, ?_, ?_, ?_, ?_, ?_⟩
  case _ =>
    cases hfv : f v <;> simp [tap, hfv, bind, Except.bind, pure, Except.pure]
  case _ =>
    cases hfv : fm v <;>
      simp [tap_mut, hfv, bind, Except.bind, pure, Except.pure]
  case _ =>
    cases hgv : g (conv v) <;>
      simp [tap_borrow, hgv, bind, Except.bind, pure, Except.pure]
  case _ =>
    cases hgv : gm (V.get v) <;>
      simp [tap_borrow_mut, hgv, bind, Except.bind, pure, Except.pure]
  case _ =>
    cases hgv : g (conv v) <;>
      simp [tap_ref, hgv, bind, Except.bind, pure, Except.pure]
  case _ =>
    cases hgv : gm (V.get v) <;>
      simp [tap_ref_mut, hgv, bind, Except.bind, pure, Except.pure]
  case _ =>
    cases hgv : g (conv v) <;>
      simp [tap_deref, hgv, bind, Except.bind, pure, Except.pure]
  case _ =>
    cases hgv : gm (V.get v) <;>
      simp [tap_deref_mut, hgv, bind, Except.bind, pure, Except.pure]
  case _ =>
    cases hbr : I.branch t with
    | Continue o =>
        cases ho : hc o <;>
          simp [tap_continue, hbr, ho, bind, Except.bind, pure, Except.pure]
    | Break r => simp [tap_continue, hbr, pure, Except.pure]
  case _ =>
    cases hbr : I.branch t with
    | Continue o =>
        cases ho : hcm o <;>
          simp [tap_continue_mut, hbr, ho, bind, Except.bind, pure, Except.pure]
    | Break r => simp [tap_continue_mut, hbr, pure, Except.pure]
  case _ =>
    cases hbr : I.branch t with
    | Continue o => simp [tap_break, hbr, pure, Except.pure]
    | Break r =>
        cases hr : hb r <;>
          simp [tap_break, hbr, hr, bind, Except.bind, pure, Except.pure]
  case _ =>
    cases hbr : I.branch t with
    | Continue o => simp [tap_break_mut, hbr, pure, Except.pure]
    | Break r =>
        cases hr : hbm r <;>
          simp [tap_break_mut, hbr, hr, bind, Except.bind, pure, Except.pure]

end TapSpec
